import Mathlib

/-!
Verification of the Pintos user-process virtual-memory core
(`vm/page.c`, `vm/frame.c`, syscall validation) against its
natural-language specification.

The C code is shallowly embedded: structs become Lean structures,
machine integers become `Nat`/`Int` (with explicit `% 2^32` where the C
performs a `size_t` cast), pointers that can be `NULL` become `Option`,
and external collaborators (file reads, `install_page`, `swap_out`,
`palloc`) become explicit oracle arguments recording the result the
collaborator produced.  Kernel `PANIC` and C undefined behaviour
(dereferencing a `NULL` `spt_entry`) are modelled as `none` of an
`Option` result.
-/

namespace PintosVM

/-- `enum spte_type` from `vm/page.h`: CODE = 0, FILE = 1, MMAP = 2. -/
inductive SpteType where
  | CODE
  | FILE
  | MMAP
deriving DecidableEq

/-- Page size, 4096 bytes (`PGSIZE`). -/
def PGSIZE : Nat := 4096

/-- User-address ceiling `PHYS_BASE = 0xC0000000`. -/
def PHYS_BASE : Nat := 0xC0000000

/-- `BITMAP_ERROR` sentinel (`SIZE_MAX` on the 32-bit target). -/
def BITMAP_ERROR : Nat := 4294967295

/-- `struct spt_entry` from `vm/page.h`.  The `frame` pointer becomes
`Option Nat` (a frame identified by its kernel virtual address);
`struct file *` becomes a `Nat` file handle identity; the swap index
`idx` keeps the C sentinel convention (`BITMAP_ERROR` = never swapped). -/
structure SptEntry where
  type : SpteType
  upage : Nat
  frame : Option Nat
  pinned : Bool
  is_in_swap : Bool
  idx : Nat
  file : Nat
  ofs : Nat
  writable : Bool
  page_read_bytes : Nat
  page_zero_bytes : Nat
deriving DecidableEq

/-- `struct frame_table_entry` as the victim scanner sees it: the fields
`pinned`/`type` come from `fte->spte`, and the `dirty`/`accessed` bits
are the pagedir bits of `(fte->t, fte->spte->upage)`, which are private
to this entry since distinct frame-table entries have distinct
(thread, upage) pairs.  `write_ok` is the oracle for the result of
`write_to_disk` on this page. -/
structure FTE where
  frame : Nat
  pinned : Bool
  type : SpteType
  dirty : Bool
  accessed : Bool
  write_ok : Bool
deriving DecidableEq

/-- Phase 1 of `get_victim_frame` (`vm/frame.c`): scan in FIFO order;
skip pinned frames; for non-CODE dirty frames write back (clearing the
dirty bit when the write succeeds) and keep scanning; return a non-CODE
frame when it is clean and un-accessed; return a CODE frame when it is
clean and un-accessed.  The returned list is the frame table with the
pagedir-bit mutations the scan performed before it stopped. -/
def phase1 : List FTE → Option FTE × List FTE
  | [] => (none, [])
  | fte :: rest =>
    if fte.pinned then
      ((phase1 rest).1, fte :: (phase1 rest).2)
    else if fte.type ≠ SpteType.CODE then
      if fte.dirty then
        ((phase1 rest).1,
          (if fte.write_ok then { fte with dirty := false } else fte) :: (phase1 rest).2)
      else if fte.accessed then
        ((phase1 rest).1, fte :: (phase1 rest).2)
      else
        (some fte, fte :: rest)
    else
      if fte.dirty = false ∧ fte.accessed = false then
        (some fte, fte :: rest)
      else
        ((phase1 rest).1, fte :: (phase1 rest).2)

/-- Phase 2 of `get_victim_frame`: return the first unpinned frame with
`(!is_dirty || type == CODE) && !is_accessed`; clear the accessed bit of
every other unpinned frame encountered. -/
def phase2 : List FTE → Option FTE × List FTE
  | [] => (none, [])
  | fte :: rest =>
    if fte.pinned then
      ((phase2 rest).1, fte :: (phase2 rest).2)
    else if (fte.dirty = false ∨ fte.type = SpteType.CODE) ∧ fte.accessed = false then
      (some fte, fte :: rest)
    else
      ((phase2 rest).1, { fte with accessed := false } :: (phase2 rest).2)

/-- Phase 3 of `get_victim_frame`: first unpinned frame in FIFO order,
`none` (the C `return NULL`) when every frame is pinned. -/
def phase3 : List FTE → Option FTE
  | [] => none
  | fte :: rest => if fte.pinned then phase3 rest else some fte

/-- `get_victim_frame` (`vm/frame.c`): run phase 1; on failure run
phase 2 on the list as phase 1 left it; on failure run phase 3 on the
list as phase 2 left it. -/
def get_victim_frame (l : List FTE) : Option FTE :=
  match (phase1 l).1 with
  | some v => some v
  | none =>
    match (phase2 (phase1 l).2).1 with
    | some v => some v
    | none => phase3 (phase2 (phase1 l).2).2

/-- Unpinned clean un-accessed MMAP frame: selected by phase 1. -/
def fteClean : FTE :=
  { frame := 2, pinned := false, type := SpteType.MMAP,
    dirty := false, accessed := false, write_ok := true }

/-- Pinned frame that the scanner must skip. -/
def ftePinned : FTE :=
  { frame := 1, pinned := true, type := SpteType.CODE,
    dirty := false, accessed := false, write_ok := true }

/-- Unpinned CODE frame, dirty but not accessed: the claimed phase-1
condition `!accessed ∧ (!dirty ∨ kind = CODE)` would select it. -/
def fteDirtyCode : FTE :=
  { frame := 3, pinned := false, type := SpteType.CODE,
    dirty := true, accessed := false, write_ok := true }

/-- `pg_round_down` from `threads/vaddr.h`: round down to a page
boundary. -/
def pg_round_down (a : Nat) : Nat := a - a % PGSIZE

/-- The state touched by the SPT operations: the per-process SPT (the
hash modelled as a list of entries with distinct `upage` keys), the
global frame table (frames identified by kernel virtual address, FIFO
order), the set of allocated swap-slot indices (the swap bitmap), and
the set of user pages with a hardware mapping installed (the pagedir). -/
structure VMState where
  spt : List SptEntry
  frames : List Nat
  swap_used : List Nat
  mapped : List Nat
deriving DecidableEq

/-- `uvaddr_to_spt_entry` (`vm/page.c`): hash lookup keyed on the
rounded-down address. -/
def uvaddr_to_spt_entry (spt : List SptEntry) (uvaddr : Nat) : Option SptEntry :=
  spt.find? (fun e => e.upage == pg_round_down uvaddr)

/-- Pintos `hash_insert`: insert only when no entry with an equal key is
present (otherwise the existing element is returned and the table is
untouched). -/
def hash_insert (spt : List SptEntry) (e : SptEntry) : List SptEntry :=
  if spt.any (fun x => x.upage == e.upage) then spt else e :: spt

/-- `create_spte` (`vm/page.c`): fresh entry with `frame = NULL`,
`upage = NULL`, `is_in_swap = false`, `idx = BITMAP_ERROR`,
`pinned = false`.  The C leaves `type`, `file`, `ofs`, `writable` and
the byte counts uninitialized (malloc garbage); they are modelled by
fixed placeholder values that every caller overwrites where the C does. -/
def create_spte : SptEntry :=
  { type := SpteType.CODE, upage := 0, frame := none, pinned := false,
    is_in_swap := false, idx := BITMAP_ERROR, file := 0, ofs := 0,
    writable := false, page_read_bytes := 0, page_zero_bytes := 0 }

/-- `free_spte` (`vm/page.c`): if the entry is resident, write its page
back when it is an `MMAP` or a writable `FILE` (a file write, invisible
in this state), clear the hardware mapping (`pagedir_clear_page`), free
the frame (`free_frame` removes it from the frame table and returns it
to the pool); then `hash_delete` the entry from the SPT and free it.
Note: no swap-release call appears anywhere in the body. -/
def free_spte (spte : SptEntry) (st : VMState) : VMState :=
  let st1 :=
    match spte.frame with
    | some fr =>
      { st with mapped := st.mapped.erase spte.upage,
                frames := st.frames.erase fr }
    | none => st
  { st1 with spt := st1.spt.eraseP (fun e => e.upage == spte.upage) }

/-- `destroy_spt` (`vm/page.c`): `hash_destroy` calls `free_spte_elem`
— hence `free_spte` — on every entry of the table. -/
def destroy_spt (st : VMState) : VMState :=
  st.spt.foldl (fun s e => free_spte e s) st

/-- A swapped-out CODE entry owning slot 5. -/
def swappedEntry : SptEntry :=
  { type := SpteType.CODE, upage := 8192, frame := none, pinned := false,
    is_in_swap := true, idx := 5, file := 0, ofs := 0, writable := false,
    page_read_bytes := 0, page_zero_bytes := 0 }

/-- Teardown state for the C1 witness: one swapped-out entry, slot 5
allocated in the swap bitmap. -/
def stSwap : VMState :=
  { spt := [swappedEntry], frames := [], swap_used := [5], mapped := [] }

/-- `add_to_frame_table` (`vm/frame.c`): `list_push_back` of the new
frame-table entry. -/
def add_to_frame_table (frames : List Nat) (fr : Nat) : List Nat :=
  frames ++ [fr]

/-- `free_frame` (`vm/frame.c`): remove the entry holding this frame
from the frame table (first match, then `break`) and return the page to
the pool. -/
def free_frame (frames : List Nat) (fr : Nat) : List Nat :=
  frames.erase fr

/-- Result of an `install_load_*` call: the C return value, the entry
as the call left it (the C mutates it in place), and the frame table. -/
structure LoadResult where
  ok : Bool
  spte : SptEntry
  frames : List Nat
deriving DecidableEq

/-- `install_load_file` (`vm/page.c`).  `newFrame` is the frame
`get_frame_for_page` produced (recorded in the frame table by
`add_to_frame_table`); `readResult` is the oracle for the value
`file_read` returned; `installOk` for the success of `install_page`.
On a short read or a failed install the frame is released via
`free_frame` and the entry is left untouched; only on success is
`spte->frame` assigned. -/
def install_load_file (newFrame : Nat) (readResult : Int) (installOk : Bool)
    (spte : SptEntry) (frames : List Nat) : LoadResult :=
  let frames1 := add_to_frame_table frames newFrame
  if readResult ≠ (spte.page_read_bytes : Int) then
    { ok := false, spte := spte, frames := free_frame frames1 newFrame }
  else if installOk = false then
    { ok := false, spte := spte, frames := free_frame frames1 newFrame }
  else
    { ok := true, spte := { spte with frame := some newFrame }, frames := frames1 }

/-- `install_load_swap` (`vm/page.c`): allocate a zeroed frame; if
`install_page` succeeds, set `spte->frame` and, when the entry was in
swap, swap it in and clear `is_in_swap`/`idx`; on failure free the frame
and leave the entry untouched. -/
def install_load_swap (newFrame : Nat) (installOk : Bool)
    (spte : SptEntry) (frames : List Nat) : LoadResult :=
  let frames1 := add_to_frame_table frames newFrame
  if installOk then
    let spte1 := { spte with frame := some newFrame }
    let spte2 :=
      if spte1.is_in_swap then
        { spte1 with is_in_swap := false, idx := BITMAP_ERROR }
      else spte1
    { ok := true, spte := spte2, frames := frames1 }
  else
    { ok := false, spte := spte, frames := free_frame frames1 newFrame }

/-- Non-resident FILE entry used by the C6 witness. -/
def fileEntry : SptEntry :=
  { type := SpteType.FILE, upage := 4096, frame := none, pinned := false,
    is_in_swap := false, idx := BITMAP_ERROR, file := 1, ofs := 0,
    writable := false, page_read_bytes := 4096, page_zero_bytes := 0 }

/-- The C cast `(size_t) x` on the 32-bit target: reduce modulo `2^32`. -/
def cSizeT (x : Int) : Nat := (x % (4294967296 : Int)).toNat

/-- `grow_stack` (`vm/page.c`).  `maxStack` is `MAX_STACK_SIZE` (defined
outside the repository's core sources, hence a parameter); `newFrame`
and `installOk` are the oracles the load consumes.  The C first checks
`(size_t) (PHYS_BASE - uaddr) > MAX_STACK_SIZE`, then inserts a fresh
CODE entry via `create_spte_code`, sets its `pinned` field, and returns
`install_load_page` — which for a CODE entry is `install_load_swap`,
mutating that same inserted entry in place.  Per `hash_insert`
semantics the insertion is a no-op when an entry with the same key is
already present. -/
def grow_stack (maxStack newFrame : Nat) (installOk : Bool)
    (uaddr : Nat) (pinned : Bool) (st : VMState) : Bool × VMState :=
  let upage := pg_round_down uaddr
  if cSizeT ((PHYS_BASE : Int) - (uaddr : Int)) > maxStack then (false, st)
  else
    let spte := { create_spte with type := SpteType.CODE, upage := upage, pinned := pinned }
    let present := st.spt.any (fun x => x.upage == upage)
    let r := install_load_swap newFrame installOk spte st.frames
    (r.ok, { st with spt := if present then st.spt else r.spte :: st.spt,
                     frames := r.frames,
                     mapped := if r.ok then upage :: st.mapped else st.mapped })

/-- Empty process state. -/
def stEmpty : VMState := { spt := [], frames := [], swap_used := [], mapped := [] }

/-- Effect record of `evict_frame`: the entry as the call left it and
the detach actions `clear_frame_entry` performed (frame-table removal,
`pagedir_clear_page`, `palloc_free_page`). -/
structure EvictOutcome where
  spte : SptEntry
  fte_removed : Bool
  mapping_cleared : Bool
  frame_freed : Bool
deriving DecidableEq

/-- The CODE arm of `evict_frame` (`vm/frame.c`): assert the entry is
resident, `swap_out` it (`swapOutResult` is the slot the swap device
returned, `BITMAP_ERROR` meaning the swap is full, which the C answers
with `PANIC` — modelled as `none`), record the slot, set `is_in_swap`,
clear `frame`, and detach via `clear_frame_entry`. -/
def evict_code (swapOutResult : Nat) (spte : SptEntry) : Option EvictOutcome :=
  if spte.frame = none then none
  else if swapOutResult = BITMAP_ERROR then none
  else some { spte := { spte with idx := swapOutResult, is_in_swap := true, frame := none },
              fte_removed := true, mapping_cleared := true, frame_freed := true }

/-- `evict_frame` (`vm/frame.c`): MMAP pages are written back when dirty
(fatal if the write fails) and detached; FILE pages are promoted to CODE
and fall through (the C `switch` has no `break` between the cases) to
the CODE arm; CODE pages are swapped out. -/
def evict_frame (swapOutResult : Nat) (isDirty writeOk : Bool)
    (spte : SptEntry) : Option EvictOutcome :=
  match spte.type with
  | SpteType.MMAP =>
    if isDirty = true ∧ writeOk = false then none
    else some { spte := { spte with frame := none },
                fte_removed := true, mapping_cleared := true, frame_freed := true }
  | SpteType.FILE => evict_code swapOutResult { spte with type := SpteType.CODE }
  | SpteType.CODE => evict_code swapOutResult spte

/-- Resident writable FILE entry used by the C8 witness. -/
def residentFile : SptEntry :=
  { type := SpteType.FILE, upage := 12288, frame := some 3, pinned := false,
    is_in_swap := false, idx := BITMAP_ERROR, file := 2, ofs := 4096,
    writable := true, page_read_bytes := 4096, page_zero_bytes := 0 }

/-- The C int expression `x == 0`: 1 when equal, 0 otherwise. -/
def cEq0 (x : Nat) : Nat := if x = 0 then 1 else 0

/-- The guard written `flags & PAL_USER == 0` in `get_frame_for_page`
and `frame_alloc`, as C parses it: `==` binds tighter than `&`, so it is
`flags & (PAL_USER == 0)`, truthy iff that value is non-zero.
`palUser` is the numeric value of the `PAL_USER` flag bit (defined in a
header outside the core sources, hence a parameter; it is a non-zero
bit). -/
def user_flag_guard (palUser flags : Nat) : Bool :=
  Nat.land flags (cEq0 palUser) != 0

/-- Possible results of the frame-allocation entry points: a frame, the
C `NULL` return, or a kernel `PANIC`. -/
inductive FrameResult where
  | frame (k : Nat)
  | nullPtr
  | fatal
deriving DecidableEq

/-- `frame_alloc` (`vm/frame.c`): after the (dead) flag guard, try
`palloc_get_page`; on exhaustion run the eviction loop until a frame
appears or `PANIC`.  `pallocResult` is the oracle for the frame the
allocation/eviction loop eventually produced (`none` = the loop
panicked). -/
def frame_alloc (palUser flags : Nat) (pallocResult : Option Nat) : FrameResult :=
  if user_flag_guard palUser flags then FrameResult.nullPtr
  else
    match pallocResult with
    | some f => FrameResult.frame f
    | none => FrameResult.fatal

/-- `get_frame_for_page` (`vm/frame.c`): NULL for a NULL spte; the
(dead) flag guard; then `frame_alloc`, recording the frame in the frame
table on success and `PANIC`ing when `frame_alloc` yielded no frame. -/
def get_frame_for_page (palUser flags : Nat) (spte : Option SptEntry)
    (pallocResult : Option Nat) : FrameResult :=
  match spte with
  | none => FrameResult.nullPtr
  | some _ =>
    if user_flag_guard palUser flags then FrameResult.nullPtr
    else
      match frame_alloc palUser flags pallocResult with
      | FrameResult.frame f => FrameResult.frame f
      | _ => FrameResult.fatal

/-- The loop of `free_spte_mmap` (`vm/page.c`): starting from the first
entry's `upage`, walk `read_bytes = file_length (first->file)` bytes
page by page; at each page look up the entry, advance by its
`page_read_bytes`, and `free_spte` it when it belongs to the same file.
`read_bytes` is a C `int`, so the walk stops when it drops to zero or
below.  The C dereferences the looked-up pointer unconditionally, so a
missing entry is undefined behaviour — modelled as `none`; the `fuel`
argument bounds the iteration count (an entry with `page_read_bytes = 0`
would loop forever in C, which also lands in `none`). -/
def free_spte_mmap_loop (first : SptEntry) :
    Nat → Int → Nat → VMState → Option VMState
  | 0, _, _, _ => none
  | fuel + 1, read_bytes, upage, st =>
    if read_bytes ≤ 0 then some st
    else
      match uvaddr_to_spt_entry st.spt upage with
      | none => none
      | some spte =>
        free_spte_mmap_loop first fuel
          (read_bytes - (spte.page_read_bytes : Int))
          (upage + PGSIZE)
          (if spte.file == first.file then free_spte spte st else st)

/-- `free_spte_mmap` (`vm/page.c`): nothing to do for a NULL handle;
otherwise walk `file_length (first->file)` bytes from the first entry.
`flen` is the oracle mapping a file handle to its `file_length`. -/
def free_spte_mmap (flen : Nat → Nat) (first : Option SptEntry)
    (st : VMState) : Option VMState :=
  match first with
  | none => some st
  | some fs => free_spte_mmap_loop fs (flen fs.file + 1) ((flen fs.file : Nat) : Int) fs.upage st

/-- The loop of `create_spte_mmap` (`vm/page.c`): while bytes remain,
look the target page up; on a hit roll back via `free_spte_mmap` on the
first inserted entry and return NULL; otherwise insert a fresh `MMAP`
entry and advance offset, remaining bytes and page.  The first inserted
entry is remembered as the handle.  `fuel` bounds the iterations; each
real iteration consumes at least one byte, so `read_bytes + 1` never
runs out. -/
def create_spte_mmap_loop (flen : Nat → Nat) (f : Nat) :
    Nat → Nat → Nat → Nat → Option SptEntry → VMState →
      Option (Option SptEntry × VMState)
  | 0, _, _, _, _, _ => none
  | fuel + 1, read_bytes, upage, ofs, first, st =>
    if read_bytes = 0 then some (first, st)
    else
      let page_read_bytes := if read_bytes < PGSIZE then read_bytes else PGSIZE
      let page_zero_bytes := PGSIZE - page_read_bytes
      match uvaddr_to_spt_entry st.spt upage with
      | some _ => (free_spte_mmap flen first st).map (fun st1 => (none, st1))
      | none =>
        let spte := { create_spte with
                      type := SpteType.MMAP,
                      upage := upage,
                      file := f,
                      ofs := ofs,
                      page_read_bytes := page_read_bytes,
                      page_zero_bytes := page_zero_bytes,
                      writable := true }
        let st1 : VMState := { st with spt := hash_insert st.spt spte }
        let first1 := if first.isNone then some spte else first
        create_spte_mmap_loop flen f fuel (read_bytes - page_read_bytes)
          (upage + PGSIZE) (ofs + page_read_bytes) first1 st1

/-- `create_spte_mmap` (`vm/page.c`): run the insertion loop over
`read_bytes` bytes starting at `upage` with offset 0 and no first entry
yet.  The result is `none` for a C crash/diverging run, otherwise the
returned handle (NULL on conflict) and the resulting state. -/
def create_spte_mmap (flen : Nat → Nat) (f : Nat) (read_bytes : Nat)
    (upage : Nat) (st : VMState) : Option (Option SptEntry × VMState) :=
  create_spte_mmap_loop flen f (read_bytes + 1) read_bytes upage 0 none st

/-- File-length oracle for the C2 run: file 1 is 8192 bytes long. -/
def flenEx : Nat → Nat := fun f => if f = 1 then 8192 else 0

/-- Pre-call state for the C2 run: one pre-existing FILE entry for
file 1 at page 4096. -/
def stPre : VMState :=
  { spt := [fileEntry], frames := [], swap_used := [], mapped := [] }

/-- `exit` (`userprog/syscall.c`): a NULL `esp` — the internal
kill-the-process call — exits with status −1; otherwise the status is
read from the user stack. -/
def exit_status (esp : Option Int) : Int :=
  match esp with
  | some v => v
  | none => -1

/-- `is_writable` (`userprog/syscall.c`): look the pointer up in the
SPT and `exit (NULL)` when the entry is a read-only FILE.  `some true` =
the process is terminated, `some false` = the check passes, `none` = the
C dereferenced a NULL entry (no SPT entry for the pointer). -/
def is_writable (spt : List SptEntry) (ptr : Nat) : Option Bool :=
  match uvaddr_to_spt_entry spt ptr with
  | none => none
  | some spte => some (spte.type == SpteType.FILE && !spte.writable)

/-- The write-validation step of the `read` syscall
(`userprog/syscall.c`): the only syscall that writes into a user buffer
calls `is_writable (buffer)` once, on the buffer start; `size` is not
consulted by the write check. -/
def read_write_validation (spt : List SptEntry) (buffer size : Nat) : Option Bool :=
  is_writable spt buffer

/-- Writable anonymous page at 0 for the C5 run. -/
def codePage : SptEntry := { create_spte with upage := 0 }

/-- SPT for the C5 run: a CODE page at 0 followed by a read-only FILE
page at 4096. -/
def sptRW : List SptEntry := [codePage, fileEntry]

lemma phase1_victim_flags (l : List FTE) (v : FTE) (h : (phase1 l).1 = some v) :
    v.pinned = false ∧ v.dirty = false ∧ v.accessed = false := by
  induction l with
  | nil => simp [phase1] at h
  | cons fte rest ih =>
    simp only [phase1] at h
    by_cases h1 : fte.pinned = true
    · simp only [h1, if_true] at h
      exact ih h
    · simp only [h1, if_false, Bool.false_eq_true] at h
      by_cases h2 : fte.type = SpteType.CODE
      · simp only [h2, ne_eq, not_true_eq_false, if_false] at h
        by_cases h3 : fte.dirty = false ∧ fte.accessed = false
        · rw [if_pos h3] at h
          simp only [Option.some.injEq] at h
          subst h
          exact ⟨by simpa using h1, h3.1, h3.2⟩
        · rw [if_neg h3] at h
          exact ih h
      · simp only [ne_eq, h2, not_false_eq_true, if_true] at h
        by_cases h3 : fte.dirty = true
        · simp only [h3, if_true] at h
          exact ih h
        · simp only [h3, if_false, Bool.false_eq_true] at h
          by_cases h4 : fte.accessed = true
          · simp only [h4, if_true] at h
            exact ih h
          · simp only [h4, if_false, Bool.false_eq_true, Option.some.injEq] at h
            subst h
            exact ⟨by simpa using h1, by simpa using h3, by simpa using h4⟩

lemma phase2_victim_unpinned (l : List FTE) (v : FTE) (h : (phase2 l).1 = some v) :
    v.pinned = false := by
  induction l with
  | nil => simp [phase2] at h
  | cons fte rest ih =>
    simp only [phase2] at h
    by_cases h1 : fte.pinned = true
    · simp only [h1, if_true] at h
      exact ih h
    · simp only [h1, if_false, Bool.false_eq_true] at h
      by_cases h2 : (fte.dirty = false ∨ fte.type = SpteType.CODE) ∧ fte.accessed = false
      · rw [if_pos h2] at h
        simp only [Option.some.injEq] at h
        subst h
        simpa using h1
      · rw [if_neg h2] at h
        exact ih h

lemma phase3_victim_unpinned (l : List FTE) (v : FTE) (h : phase3 l = some v) :
    v.pinned = false := by
  induction l with
  | nil => simp [phase3] at h
  | cons fte rest ih =>
    simp only [phase3] at h
    by_cases h1 : fte.pinned = true
    · simp only [h1, if_true] at h
      exact ih h
    · simp only [h1, if_false, Bool.false_eq_true, Option.some.injEq] at h
      subst h
      simpa using h1

/-- C3: every victim returned by `get_victim_frame` — whichever of the
three phases produced it — is unpinned at the moment of selection. -/
theorem get_victim_frame_never_pinned (l : List FTE) (v : FTE)
    (h : get_victim_frame l = some v) : v.pinned = false := by
  unfold get_victim_frame at h
  cases hp1 : (phase1 l).1 with
  | some w =>
    rw [hp1] at h
    simp only [Option.some.injEq] at h
    subst h
    exact (phase1_victim_flags l w hp1).1
  | none =>
    rw [hp1] at h
    cases hp2 : (phase2 (phase1 l).2).1 with
    | some w =>
      rw [hp2] at h
      simp only [Option.some.injEq] at h
      subst h
      exact phase2_victim_unpinned (phase1 l).2 w hp2
    | none =>
      rw [hp2] at h
      exact phase3_victim_unpinned (phase2 (phase1 l).2).2 v h

/-- Witness for C3 at a concrete frame table: the pinned first frame is
skipped and the unpinned second frame is chosen, and the theorem yields
its unpinnedness. -/
theorem get_victim_frame_never_pinned_witness :
    get_victim_frame [ftePinned, fteClean] = some fteClean ∧ fteClean.pinned = false :=
  ⟨by decide, get_victim_frame_never_pinned [ftePinned, fteClean] fteClean (by decide)⟩

/-- C4 counterexample: an unpinned CODE frame with the accessed bit
clear but the dirty bit set is NOT returned by phase 1 (the C phase-1
CODE branch requires `!is_dirty && !is_accessed`), refuting the claim
that phase 1 returns such a frame regardless of its dirty bit. -/
theorem phase1_dirty_code_counterexample :
    fteDirtyCode.pinned = false ∧ fteDirtyCode.type = SpteType.CODE ∧
    fteDirtyCode.accessed = false ∧ (phase1 [fteDirtyCode]).1 = none := by
  decide

/-- C4 amended: phase 1 returns a victim (CODE or not) only when both
its dirty and accessed bits are clear; conversely a leading unpinned
clean un-accessed CODE frame is returned.  The disjunctive condition
`!accessed ∧ (!dirty ∨ kind = CODE)` is phase 2's condition, not
phase 1's. -/
theorem phase1_code_victim_clean :
    (∀ (l : List FTE) (v : FTE), (phase1 l).1 = some v →
        v.dirty = false ∧ v.accessed = false) ∧
    (∀ (fte : FTE) (rest : List FTE), fte.pinned = false →
        fte.type = SpteType.CODE → fte.dirty = false → fte.accessed = false →
        (phase1 (fte :: rest)).1 = some fte) := by
  constructor
  · intro l v h
    exact (phase1_victim_flags l v h).2
  · intro fte rest h1 h2 h3 h4
    simp [phase1, h1, h2, h3, h4]

/-- Witness for the amended C4 statement at a concrete frame: a clean
un-accessed unpinned CODE frame heading the table is selected by
phase 1. -/
theorem phase1_code_victim_clean_witness :
    (phase1 [{ frame := 4, pinned := false, type := SpteType.CODE,
               dirty := false, accessed := false, write_ok := true }]).1 =
      some { frame := 4, pinned := false, type := SpteType.CODE,
             dirty := false, accessed := false, write_ok := true } :=
  phase1_code_victim_clean.2
    { frame := 4, pinned := false, type := SpteType.CODE,
      dirty := false, accessed := false, write_ok := true } [] rfl rfl rfl rfl

lemma free_spte_swap_eq (spte : SptEntry) (st : VMState) :
    (free_spte spte st).swap_used = st.swap_used := by
  unfold free_spte
  cases spte.frame <;> rfl

lemma foldl_free_spte_swap_eq (l : List SptEntry) (st : VMState) :
    (l.foldl (fun s e => free_spte e s) st).swap_used = st.swap_used := by
  induction l generalizing st with
  | nil => rfl
  | cons e rest ih =>
    simp only [List.foldl_cons]
    rw [ih, free_spte_swap_eq]

/-- C1: the per-entry release never releases a swap slot — even for an
entry that references one (`is_in_swap` with a valid index), `free_spte`
and `destroy_spt` leave the swap bitmap exactly as it was, so a process
that exits with pages swapped out leaks its slots. -/
theorem free_spte_never_releases_swap (spte : SptEntry) (st : VMState)
    (h1 : spte.is_in_swap = true) (h2 : spte.idx ≠ BITMAP_ERROR) :
    (free_spte spte st).swap_used = st.swap_used ∧
    (destroy_spt st).swap_used = st.swap_used := by
  exact ⟨free_spte_swap_eq spte st, foldl_free_spte_swap_eq st.spt st⟩

/-- Witness for C1 at the failing input: the entry owns slot 5, yet both
the per-entry release and the full teardown leave slot 5 allocated. -/
theorem free_spte_never_releases_swap_witness :
    swappedEntry.is_in_swap = true ∧ swappedEntry.idx ≠ BITMAP_ERROR ∧
    (free_spte swappedEntry stSwap).swap_used = [5] ∧
    (destroy_spt stSwap).swap_used = [5] := by
  refine ⟨by decide, by decide, ?_⟩
  have h := free_spte_never_releases_swap swappedEntry stSwap (by decide) (by decide)
  exact ⟨h.1, h.2⟩

lemma erase_append_self (l : List Nat) (a : Nat) (h : a ∉ l) :
    (l ++ [a]).erase a = l := by
  rw [List.erase_append_right _ h]
  simp

/-- C6: when a load fails — short file read or failed hardware-mapping
install — the freshly allocated frame is removed from the frame table
again, the call returns false, and the entry is bit-for-bit unchanged
(in particular its `frame` field stays absent and its backing-store
fields keep their values). -/
theorem install_load_fail_reverts (newFrame : Nat) (readResult : Int)
    (installOk : Bool) (spte : SptEntry) (frames : List Nat)
    (hnf : newFrame ∉ frames) (hnr : spte.frame = none) :
    ((readResult ≠ (spte.page_read_bytes : Int) ∨ installOk = false) →
      install_load_file newFrame readResult installOk spte frames =
        { ok := false, spte := spte, frames := frames }) ∧
    (installOk = false →
      install_load_swap newFrame installOk spte frames =
        { ok := false, spte := spte, frames := frames }) := by
  constructor
  · intro hfail
    unfold install_load_file add_to_frame_table free_frame
    rcases hfail with hr | hi
    · rw [if_pos hr, erase_append_self frames newFrame hnf]
    · by_cases hr : readResult ≠ (spte.page_read_bytes : Int)
      · rw [if_pos hr, erase_append_self frames newFrame hnf]
      · rw [if_neg hr, if_pos hi, erase_append_self frames newFrame hnf]
  · intro hi
    unfold install_load_swap add_to_frame_table free_frame
    rw [hi]
    simp only [Bool.false_eq_true, if_false]
    rw [erase_append_self frames newFrame hnf]

/-- Witness for C6: a short read (3000 of 4096 bytes) on a non-resident
entry with frame 9 fresh: both loaders fail and restore the state. -/
theorem install_load_fail_reverts_witness :
    install_load_file 9 3000 true fileEntry [7] =
      { ok := false, spte := fileEntry, frames := [7] } ∧
    install_load_swap 9 false fileEntry [7] =
      { ok := false, spte := fileEntry, frames := [7] } :=
  ⟨(install_load_fail_reverts 9 3000 true fileEntry [7] (by decide) (by decide)).1
      (Or.inl (by decide)),
   (install_load_fail_reverts 9 0 false fileEntry [7] (by decide) (by decide)).2 rfl⟩

lemma cSizeT_sub (a b : Nat) (hba : b ≤ a) (ha : a < 4294967296) :
    cSizeT ((a : Int) - (b : Int)) = a - b := by
  unfold cSizeT
  omega

/-- C7: `grow_stack` succeeds only if the distance from `PHYS_BASE` down
to the address is within `MAX_STACK_SIZE`; when the distance exceeds the
bound it returns false with the whole state (in particular the SPT)
untouched. -/
theorem grow_stack_bound (maxStack newFrame : Nat) (installOk : Bool)
    (uaddr : Nat) (pinned : Bool) (st : VMState) (h : uaddr ≤ PHYS_BASE) :
    ((grow_stack maxStack newFrame installOk uaddr pinned st).1 = true →
      PHYS_BASE - uaddr ≤ maxStack) ∧
    (PHYS_BASE - uaddr > maxStack →
      grow_stack maxStack newFrame installOk uaddr pinned st = (false, st)) := by
  have hc : cSizeT ((PHYS_BASE : Int) - (uaddr : Int)) = PHYS_BASE - uaddr :=
    cSizeT_sub PHYS_BASE uaddr h (by decide)
  unfold grow_stack
  rw [hc]
  by_cases hgt : PHYS_BASE - uaddr > maxStack
  · rw [if_pos hgt]
    exact ⟨fun h' => by simp at h', fun _ => rfl⟩
  · rw [if_neg hgt]
    exact ⟨fun _ => by omega, fun h' => absurd h' hgt⟩

/-- Witness for C7: an address 8388612 bytes below `PHYS_BASE` exceeds
an 8 MiB `MAX_STACK_SIZE` and is refused with the state untouched. -/
theorem grow_stack_bound_witness :
    PHYS_BASE - (PHYS_BASE - 8388612) > 8388608 ∧
    grow_stack 8388608 1 true (PHYS_BASE - 8388612) false stEmpty = (false, stEmpty) :=
  ⟨by decide,
   (grow_stack_bound 8388608 1 true (PHYS_BASE - 8388612) false stEmpty (by decide)).2
     (by decide)⟩

/-- C10: when the bound check passes but the load fails, `grow_stack`
returns false yet the freshly inserted non-resident CODE entry stays in
the SPT (the frame table is restored; only the SPT retains the
residue). -/
theorem grow_stack_failed_load_leaves_entry (maxStack newFrame uaddr : Nat)
    (pinned : Bool) (st : VMState)
    (hb : ¬ cSizeT ((PHYS_BASE : Int) - (uaddr : Int)) > maxStack)
    (habsent : st.spt.any (fun x => x.upage == pg_round_down uaddr) = false)
    (hnf : newFrame ∉ st.frames) :
    grow_stack maxStack newFrame false uaddr pinned st =
      (false, { st with
        spt := { create_spte with
                 type := SpteType.CODE,
                 upage := pg_round_down uaddr,
                 pinned := pinned } :: st.spt }) := by
  unfold grow_stack install_load_swap add_to_frame_table free_frame
  rw [if_neg hb]
  simp only [Bool.false_eq_true, if_false, habsent]
  rw [erase_append_self st.frames newFrame hnf]

/-- Witness for C10: a valid stack address whose load fails leaves the
new CODE entry (non-resident, `frame = none`) in the SPT. -/
theorem grow_stack_failed_load_leaves_entry_witness :
    grow_stack 8388608 1 false (PHYS_BASE - 4) true stEmpty =
      (false, { stEmpty with
        spt := [{ create_spte with
                  type := SpteType.CODE,
                  upage := pg_round_down (PHYS_BASE - 4),
                  pinned := true }] }) :=
  grow_stack_failed_load_leaves_entry 8388608 1 (PHYS_BASE - 4) true stEmpty
    (by decide) (by decide) (by decide)

/-- C8: evicting a resident FILE entry promotes it to CODE and takes the
CODE path: with a successful swap allocation the outcome records the
slot in `idx`, sets `is_in_swap`, clears `frame`, and detaches (mapping
cleared, frame freed, frame-table entry removed); `swap_out` returning
`BITMAP_ERROR` is fatal. -/
theorem evict_frame_file_promotes (so : Nat) (d w : Bool) (spte : SptEntry) (fr : Nat)
    (hty : spte.type = SpteType.FILE) (hfr : spte.frame = some fr) :
    (so ≠ BITMAP_ERROR →
      evict_frame so d w spte =
        some { spte := { spte with
                         type := SpteType.CODE,
                         idx := so,
                         is_in_swap := true,
                         frame := none },
               fte_removed := true, mapping_cleared := true, frame_freed := true }) ∧
    (so = BITMAP_ERROR → evict_frame so d w spte = none) := by
  have h1 : evict_frame so d w spte = evict_code so { spte with type := SpteType.CODE } := by
    unfold evict_frame
    rw [hty]
  rw [h1]
  unfold evict_code
  simp only [hfr]
  constructor
  · intro hso
    rw [if_neg (by simp), if_neg hso]
  · intro hso
    rw [if_neg (by simp), if_pos hso]

/-- Witness for C8: evicting the resident FILE entry with swap slot 7
promotes it to CODE, records the slot, and detaches. -/
theorem evict_frame_file_promotes_witness :
    evict_frame 7 true true residentFile =
      some { spte := { residentFile with
                       type := SpteType.CODE,
                       idx := 7,
                       is_in_swap := true,
                       frame := none },
             fte_removed := true, mapping_cleared := true, frame_freed := true } :=
  (evict_frame_file_promotes 7 true true residentFile 3 rfl rfl).1 (by decide)

/-- C9: since `PAL_USER` is a non-zero constant, `PAL_USER == 0`
evaluates to 0 and the guard `flags & (PAL_USER == 0)` is false for
every `flags` value — including values without the `PAL_USER` bit — so
neither `frame_alloc` nor `get_frame_for_page` ever rejects a request
with NULL for a missing user flag, and on a non-NULL spte
`get_frame_for_page` returns a frame or panics. -/
theorem user_flag_guard_unreachable (palUser flags : Nat) (h : palUser ≠ 0) :
    user_flag_guard palUser flags = false ∧
    (∀ palloc : Option Nat,
        frame_alloc palUser flags palloc ≠ FrameResult.nullPtr) ∧
    (∀ (spte : SptEntry) (palloc : Option Nat),
        get_frame_for_page palUser flags (some spte) palloc ≠ FrameResult.nullPtr) ∧
    (∀ (spte : SptEntry) (palloc : Option Nat),
        (∃ f, get_frame_for_page palUser flags (some spte) palloc = FrameResult.frame f) ∨
        get_frame_for_page palUser flags (some spte) palloc = FrameResult.fatal) := by
  have hg : user_flag_guard palUser flags = false := by
    unfold user_flag_guard cEq0
    rw [if_neg h]
    simp [Nat.land]
  have hfa : ∀ palloc : Option Nat,
      frame_alloc palUser flags palloc ≠ FrameResult.nullPtr := by
    intro palloc
    unfold frame_alloc
    rw [hg]
    simp only [Bool.false_eq_true, if_false]
    cases palloc <;> simp
  refine ⟨hg, hfa, ?_, ?_⟩
  · intro spte palloc
    unfold get_frame_for_page
    rw [hg]
    simp only [Bool.false_eq_true, if_false]
    unfold frame_alloc
    rw [hg]
    simp only [Bool.false_eq_true, if_false]
    cases palloc <;> simp
  · intro spte palloc
    unfold get_frame_for_page
    rw [hg]
    simp only [Bool.false_eq_true, if_false]
    unfold frame_alloc
    rw [hg]
    simp only [Bool.false_eq_true, if_false]
    cases palloc with
    | some f => exact Or.inl ⟨f, rfl⟩
    | none => exact Or.inr rfl

/-- Witness for C9 at `PAL_USER = 4` and `flags = 0` (the user bit NOT
set): the guard is still false and the allocation is not refused. -/
theorem user_flag_guard_unreachable_witness :
    user_flag_guard 4 0 = false ∧
    get_frame_for_page 4 0 (some create_spte) (some 11) ≠ FrameResult.nullPtr :=
  ⟨(user_flag_guard_unreachable 4 0 (by decide)).1,
   (user_flag_guard_unreachable 4 0 (by decide)).2.2.1 create_spte (some 11)⟩

/-- C2 counterexample: `create_spte_mmap` over pages 0 and 4096 of
file 1 hits the pre-existing entry at page 4096 and returns NULL, but
the rollback (`free_spte_mmap`) walks `file_length` bytes freeing every
same-file entry, so it frees the pre-existing FILE entry too: the SPT
afterwards is empty instead of equal to its pre-call contents
`[fileEntry]`. -/
theorem create_spte_mmap_overlap_counterexample :
    create_spte_mmap flenEx 1 8192 0 stPre =
      some (none, { spt := [], frames := [], swap_used := [], mapped := [] }) ∧
    stPre.spt = [fileEntry] ∧
    (create_spte_mmap flenEx 1 8192 0 stPre ≠ some (none, stPre)) := by
  decide

/-- C5 counterexample: a 2-page buffer `[0, 8192)` whose second page is
backed by a read-only FILE entry passes the read syscall's write
validation (`some false` = not terminated), because only the first page
is consulted — refuting the claim that each page of the range is
checked. -/
theorem read_write_validation_counterexample :
    read_write_validation sptRW 0 8192 = some false ∧
    uvaddr_to_spt_entry sptRW 4096 = some fileEntry ∧
    fileEntry.type = SpteType.FILE ∧ fileEntry.writable = false := by
  decide

/-- C5 amended: write validation consults only the SPT entry of the
buffer's first page; the process is terminated — with status −1, since
the termination is `exit (NULL)` — exactly when that entry has
`kind = FILE ∧ ¬writable`; read-only FILE pages elsewhere in the range
are not checked. -/
theorem read_write_validation_first_page (spt : List SptEntry)
    (buffer size : Nat) (e : SptEntry)
    (h : uvaddr_to_spt_entry spt buffer = some e) :
    (read_write_validation spt buffer size = some true ↔
      (e.type = SpteType.FILE ∧ e.writable = false)) ∧
    exit_status none = -1 := by
  refine ⟨?_, rfl⟩
  unfold read_write_validation is_writable
  rw [h]
  simp only [Option.some.injEq, Bool.and_eq_true, beq_iff_eq, Bool.not_eq_true']

/-- Witness for the amended C5 statement: validating a buffer whose
first page is the read-only FILE entry terminates the process. -/
theorem read_write_validation_first_page_witness :
    read_write_validation [fileEntry] 4096 100 = some true ∧ exit_status none = -1 :=
  ⟨(read_write_validation_first_page [fileEntry] 4096 100 fileEntry (by decide)).1.mpr
     ⟨rfl, rfl⟩,
   (read_write_validation_first_page [fileEntry] 4096 100 fileEntry (by decide)).2⟩

end PintosVM

